import Mathlib

/-!
# Verification of the AI-Mock-Excel-Interviewer core algorithms

Shallow embedding of the repository's Python sources into Lean 4.
Python floats are modelled as rationals (`ℚ`), fallible Python code as
`Except PyErr`, and `None`-able values as `Option`.  Each definition is a
direct translation of the function of the same name in the source tree;
definitions whose doc comment starts with `Modelled from the spec:` stand
for code the repository references but never defines.
-/

namespace ExcelInterviewer

/-- Python exception kinds raised by the modelled code paths. -/
inductive PyErr where
  | attributeError
  | valueError (msg : String)
  deriving DecidableEq, Repr

/-! ## Python string primitives -/

/-- Whitespace-run splitter over a character list; `acc` holds the current
word reversed.  (Core's `String.split` is defined by well-founded recursion
and does not reduce in the kernel, so splitting is done structurally.) -/
def wordsAux : List Char → List Char → List String
  | [], acc => if acc.isEmpty then [] else [String.mk acc.reverse]
  | c :: t, acc =>
    if c.isWhitespace then
      if acc.isEmpty then wordsAux t [] else String.mk acc.reverse :: wordsAux t []
    else wordsAux t (c :: acc)

/-- Python `str.split()` with no argument: split on whitespace runs,
dropping empty tokens. -/
def pySplitWs (s : String) : List String :=
  wordsAux s.toList []

/-- Splitter on a single separator character, keeping empty segments, as
Python `str.split(sep)` does. -/
def splitOnChar (sep : Char) : List Char → List (List Char)
  | [] => [[]]
  | c :: t =>
    if c = sep then [] :: splitOnChar sep t
    else
      match splitOnChar sep t with
      | [] => [[c]]
      | h :: r => (c :: h) :: r

/-- Python `len(s.split(sep))` for a one-character separator. -/
def pySplitCount (s : String) (sep : Char) : Nat :=
  (splitOnChar sep s.toList).length

/-- Contiguous-sublist test on character lists. -/
def listInfix (needle : List Char) : List Char → Bool
  | [] => needle.isEmpty
  | c :: t => needle.isPrefixOf (c :: t) || listInfix needle t

/-- Python `needle in hay` substring containment. -/
def pyIn (needle hay : String) : Bool :=
  listInfix needle.toList hay.toList

/-- Python `str.lower()`. -/
def pyLower (s : String) : String := String.mk (s.toList.map Char.toLower)

/-- Python `str.upper()`. -/
def pyUpper (s : String) : String := String.mk (s.toList.map Char.toUpper)

/-- Python `str.strip()` with no argument: trim whitespace at both ends. -/
def pyStrip (s : String) : String :=
  String.mk (((s.toList.dropWhile Char.isWhitespace).reverse.dropWhile
    Char.isWhitespace).reverse)

/-- Size of `set(expected.split()) & set(response.split())`: the number of
distinct whitespace-separated words shared by the two strings. -/
def commonCount (expected response : String) : Nat :=
  ((pySplitWs expected).dedup.filter (fun w => (pySplitWs response).contains w)).length

/-- Python `min` on two numbers (kernel-reducible, unlike the lattice `min`). -/
def pyMin (a b : ℚ) : ℚ := if a ≤ b then a else b

/-- Python `max` on two numbers. -/
def pyMax (a b : ℚ) : ℚ := if b ≤ a then a else b

/-- Python `abs` on a number. -/
def pyAbs (a : ℚ) : ℚ := if a < 0 then -a else a

/-! ## Configuration (`config/settings.py`) -/

/-- Modelled from the spec: `answer_evaluator.py` reads
`settings.TECHNICAL_WEIGHT`, but `config/settings.py` defines no attribute of
that name; the spec (§4.4, §9) fixes the authoritative configured technical
weight at 0.4 (`InterviewConfig.technical_weight`). -/
def TECHNICAL_WEIGHT : ℚ := 0.4

/-- Modelled from the spec: the authoritative configured approach weight, 0.3
(`InterviewConfig.approach_weight`); the attribute `settings.APPROACH_WEIGHT`
read by `answer_evaluator.py` is otherwise undefined. -/
def APPROACH_WEIGHT : ℚ := 0.3

/-- Modelled from the spec: the authoritative configured communication weight,
0.3 (`InterviewConfig.communication_weight`); the attribute
`settings.COMMUNICATION_WEIGHT` read by `answer_evaluator.py` is otherwise
undefined. -/
def COMMUNICATION_WEIGHT : ℚ := 0.3

/-- Modelled from the spec: default initial difficulty 5.0
(`InterviewConfig.initial_difficulty`); `settings.DEFAULT_DIFFICULTY` read by
`difficulty_manager.py` is otherwise undefined. -/
def DEFAULT_DIFFICULTY : ℚ := 5.0

/-- Modelled from the spec: lower end of `InterviewConfig.difficulty_range`;
`settings.MIN_DIFFICULTY` read by `difficulty_manager.py` is otherwise
undefined. -/
def MIN_DIFFICULTY : ℚ := 1.0

/-- Modelled from the spec: upper end of `InterviewConfig.difficulty_range`;
`settings.MAX_DIFFICULTY` read by `difficulty_manager.py` is otherwise
undefined. -/
def MAX_DIFFICULTY : ℚ := 10.0

/-! ## The `Question` record

`question_bank.py`, `question_generator.py` and `answer_evaluator.py` all
try to use a class `Question` from `src.models.question`, which defines no
such class. -/

/-- Modelled from the spec: the `Question` record (§3) as constructed
throughout `question_bank.py` — identifier, text, category, difficulty,
model answer (`expected_answer`), ordered criteria tags. -/
structure Question where
  id : String
  text : String
  category : String
  difficulty : ℚ
  expected_answer : String
  evaluation_criteria : List String
  deriving DecidableEq, Repr, Inhabited

/-- Modelled from the spec: the `EvaluationResult` record (§3) as constructed
in `answer_evaluator.py` — four scores, feedback text, strength and
improvement lists. -/
structure EvaluationResult where
  technical_score : ℚ
  approach_score : ℚ
  communication_score : ℚ
  overall_score : ℚ
  feedback : String
  strengths : List String
  areas_for_improvement : List String
  deriving DecidableEq, Repr

/-! ## `AnswerEvaluator` heuristic scoring (`src/services/answer_evaluator.py`) -/

/-- The five recognized function keywords of
`AnswerEvaluator._calculate_technical_score`. -/
def functionKeywords : List String :=
  ["SUM", "AVERAGE", "VLOOKUP", "INDEX", "MATCH"]

/-- `AnswerEvaluator._calculate_technical_score(response, expected, question)`:
`response` and `expected` arrive already lower-cased (and `response` stripped)
from `_fallback_evaluation`. -/
def calculate_technical_score (response expected : String) (question : Question) : ℚ :=
  let score : ℚ := 0
  let c := commonCount expected response
  let score := if 0 < c then score + pyMin 6 ((c : ℚ) * 2) else score
  let score :=
    if question.category = "basic_formulas" ∨ question.category = "data_analysis" then
      let score := if pyIn "=" response then score + 2 else score
      let score :=
        if functionKeywords.any (fun f => pyIn f (pyUpper response)) then score + 2 else score
      score
    else score
  pyMin 10 score

/-- `AnswerEvaluator._calculate_approach_score(response, question)`. -/
def calculate_approach_score (response : String) : ℚ :=
  let score : ℚ := 5
  let score :=
    if 100 < response.length then score + 2
    else if 50 < response.length then score + 1
    else score
  let score :=
    if ["first", "then", "next", "finally"].any (fun w => pyIn w (pyLower response)) then
      score + 1
    else score
  let score :=
    if ["best practice", "efficient", "optimize"].any (fun w => pyIn w (pyLower response)) then
      score + 2
    else score
  pyMin 10 score

/-- `AnswerEvaluator._calculate_communication_score(response)`. -/
def calculate_communication_score (response : String) : ℚ :=
  let score : ℚ := 5
  let score := if 1 < pySplitCount response '.' then score + 2 else score
  let score := if 20 < (pySplitWs response).length then score + 2 else score
  let score :=
    if ["um", "uh", "like", "you know"].any (fun w => pyIn w (pyLower response)) then score
    else score + 1
  pyMin 10 score

/-- `AnswerEvaluator._generate_fallback_feedback(tech, approach, comm)`. -/
def generate_fallback_feedback (tech approach _comm : ℚ) : String :=
  if 7 ≤ tech ∧ 7 ≤ approach then
    "Good technical understanding with a solid approach. Keep up the good work!"
  else if 5 ≤ tech then
    "Shows basic understanding but could benefit from more detailed explanations."
  else
    "Consider reviewing the fundamentals and providing more comprehensive answers."

/-- `AnswerEvaluator._identify_strengths(tech, approach, comm)`. -/
def identify_strengths (tech approach comm : ℚ) : List String :=
  let strengths := if 7 ≤ tech then ["Strong technical knowledge"] else []
  let strengths := strengths ++ (if 7 ≤ approach then ["Good problem-solving approach"] else [])
  let strengths := strengths ++ (if 7 ≤ comm then ["Clear communication"] else [])
  if strengths = [] then ["Attempted to provide an answer"] else strengths

/-- `AnswerEvaluator._identify_improvements(tech, approach, comm)`. -/
def identify_improvements (tech approach comm : ℚ) : List String :=
  let improvements := if tech < 6 then ["Review Excel functions and formulas"] else []
  let improvements :=
    improvements ++ (if approach < 6 then ["Think through problems step-by-step"] else [])
  improvements ++ (if comm < 6 then ["Provide more detailed explanations"] else [])

/-- `AnswerEvaluator._fallback_evaluation(question, response)`. -/
def fallback_evaluation (question : Question) (response : String) : EvaluationResult :=
  let response_lower := pyStrip (pyLower response)
  let expected_lower := pyLower question.expected_answer
  let technical_score := calculate_technical_score response_lower expected_lower question
  let approach_score := calculate_approach_score response
  let communication_score := calculate_communication_score response
  let overall_score :=
    (technical_score * TECHNICAL_WEIGHT +
     approach_score * APPROACH_WEIGHT +
     communication_score * COMMUNICATION_WEIGHT) /
    (TECHNICAL_WEIGHT + APPROACH_WEIGHT + COMMUNICATION_WEIGHT) * 10
  { technical_score := technical_score
    approach_score := approach_score
    communication_score := communication_score
    overall_score := overall_score
    feedback := generate_fallback_feedback technical_score approach_score communication_score
    strengths := identify_strengths technical_score approach_score communication_score
    areas_for_improvement :=
      identify_improvements technical_score approach_score communication_score }

/-! ## `AnswerEvaluator.evaluate_response` control flow

`evaluate_response` rebinds its `response` parameter to the provider response
object (`response = self.model.generate_content(...)`).  The two `except`
handlers therefore call `_fallback_evaluation(question, response)` with
whatever that name denotes at the time: the candidate's string if
`generate_content` raised before the rebinding, the provider response object
after it.  `_fallback_evaluation` starts with `response.lower()`, which raises
`AttributeError` on a provider response object. -/

/-- A value the name `response` can denote inside `evaluate_response`: the
candidate's answer string, or (after the rebinding) the provider's response
object carrying a `.text` payload. -/
inductive PyVal where
  | str (s : String)
  | providerResponse (text : String)
  deriving DecidableEq, Repr

/-- `_fallback_evaluation` applied to whatever `response` currently denotes:
its first statement `response.lower()` raises `AttributeError` unless the
value is a string. -/
def fallback_evaluation_on (question : Question) : PyVal → Except PyErr EvaluationResult
  | .str s => .ok (fallback_evaluation question s)
  | .providerResponse _ => .error .attributeError

/-- The JSON object `json.loads` can produce for an evaluation: each of the
seven keys may be absent, in which case `_dict_to_evaluation_result`
substitutes the `.get` default. -/
structure EvalDict where
  technical_score : Option ℚ := none
  approach_score : Option ℚ := none
  communication_score : Option ℚ := none
  overall_score : Option ℚ := none
  feedback : Option String := none
  strengths : Option (List String) := none
  areas_for_improvement : Option (List String) := none
  deriving DecidableEq, Repr

/-- Outcome of the provider call `self.model.generate_content(prompt)`:
either the call raises (failure, timeout), or it returns a response object
whose `.text` parses as a JSON object, or one whose `.text` does not parse. -/
inductive ProviderOutcome where
  | callRaises
  | jsonText (d : EvalDict)
  | nonJsonText (t : String)

/-- `AnswerEvaluator._dict_to_evaluation_result(result_dict)`. -/
def dict_to_evaluation_result (d : EvalDict) : EvaluationResult :=
  { technical_score := d.technical_score.getD 0
    approach_score := d.approach_score.getD 0
    communication_score := d.communication_score.getD 0
    overall_score := d.overall_score.getD 0
    feedback := d.feedback.getD "No feedback available"
    strengths := d.strengths.getD []
    areas_for_improvement := d.areas_for_improvement.getD [] }

/-- `AnswerEvaluator.evaluate_response(question, response)`.  `client` is the
truthiness of `self.client`; `provider` is the behaviour of the
`generate_content` call.  In the non-JSON branch the inner handler calls
`_fallback_evaluation` on the rebound `response` (the provider response
object); the `AttributeError` it raises is caught by the outer handler, which
retries with the same rebound value and lets the second `AttributeError`
propagate. -/
def evaluate_response (client : Bool) (provider : ProviderOutcome) (question : Question)
    (response : String) : Except PyErr EvaluationResult :=
  if !client then fallback_evaluation_on question (.str response)
  else
    match provider with
    | .callRaises =>
      -- outer handler; `response` was never rebound
      fallback_evaluation_on question (.str response)
    | .jsonText d => .ok (dict_to_evaluation_result d)
    | .nonJsonText t =>
      -- inner `except json.JSONDecodeError` handler, run inside the outer `try`
      match fallback_evaluation_on question (.providerResponse t) with
      | .ok r => .ok r
      | .error _ =>
        -- outer `except Exception` handler, same rebound `response`
        fallback_evaluation_on question (.providerResponse t)

/-! ## The question bank (`src/data/question_bank.py`) -/

/-- `QuestionBank._initialize_questions()`: the sixteen hardcoded questions. -/
def bankQuestions : List Question :=
  [ { id := "basic_1"
      text := "How would you calculate the sum of values in cells A1 to A10? Please write the exact formula."
      category := "basic_formulas"
      difficulty := 2.0
      expected_answer := "=SUM(A1:A10)"
      evaluation_criteria := ["correct_function", "proper_range", "syntax"] },
    { id := "basic_2"
      text := "What's the difference between absolute and relative cell references? Give an example of each."
      category := "basic_formulas"
      difficulty := 3.0
      expected_answer := "Relative: A1 changes when copied. Absolute: $A$1 stays fixed when copied."
      evaluation_criteria := ["understands_concept", "provides_examples", "syntax_knowledge"] },
    { id := "basic_3"
      text := "How would you calculate the average of numbers in column B, excluding blank cells?"
      category := "basic_formulas"
      difficulty := 2.5
      expected_answer := "=AVERAGE(B:B) or =AVERAGEA(B:B)"
      evaluation_criteria := ["correct_function", "handles_blanks", "range_specification"] },
    { id := "basic_4"
      text := "What function would you use to count non-empty cells in a range? Write an example."
      category := "basic_formulas"
      difficulty := 2.0
      expected_answer := "=COUNTA(A1:A10) counts non-empty cells"
      evaluation_criteria := ["correct_function", "understands_difference", "syntax"] },
    { id := "data_1"
      text := "You have sales data in column A and dates in column B. How would you find the total sales for a specific month?"
      category := "data_analysis"
      difficulty := 5.0
      expected_answer := "Use SUMIFS function: =SUMIFS(A:A, B:B, \">=\"&DATE(year,month,1), B:B, \"<\"&DATE(year,month+1,1))"
      evaluation_criteria := ["appropriate_function", "date_handling", "criteria_logic"] },
    { id := "data_2"
      text := "Explain the difference between VLOOKUP and INDEX/MATCH. When would you use each?"
      category := "data_analysis"
      difficulty := 6.0
      expected_answer := "VLOOKUP searches right, limited. INDEX/MATCH more flexible, can search left, better performance."
      evaluation_criteria := ["understands_limitations", "performance_awareness", "use_cases"] },
    { id := "data_3"
      text := "How would you create a pivot table to analyze sales by region and product category?"
      category := "data_analysis"
      difficulty := 5.5
      expected_answer := "Insert > Pivot Table, drag Region to Rows, Product Category to Columns, Sales to Values"
      evaluation_criteria := ["pivot_knowledge", "field_placement", "analysis_thinking"] },
    { id := "data_4"
      text := "What's the best way to remove duplicate entries from a large dataset in Excel?"
      category := "data_analysis"
      difficulty := 4.5
      expected_answer := "Data tab > Remove Duplicates, or Advanced Filter with unique records only"
      evaluation_criteria := ["knows_tools", "data_cleaning", "best_practices"] },
    { id := "advanced_1"
      text := "How would you create a dynamic dropdown list that updates based on another cell's value?"
      category := "advanced_functions"
      difficulty := 8.0
      expected_answer := "Use INDIRECT function with named ranges or OFFSET function with data validation."
      evaluation_criteria := ["advanced_functions", "data_validation", "dynamic_references"] },
    { id := "advanced_2"
      text := "Write a formula to find the second highest value in a range A1:A100."
      category := "advanced_functions"
      difficulty := 7.0
      expected_answer := "=LARGE(A1:A100,2) or use array formula with LARGE function"
      evaluation_criteria := ["statistical_functions", "ranking_knowledge", "formula_construction"] },
    { id := "advanced_3"
      text := "How would you use array formulas to perform calculations across multiple ranges simultaneously?"
      category := "advanced_functions"
      difficulty := 8.5
      expected_answer := "Use Ctrl+Shift+Enter for array formulas, can calculate multiple conditions or ranges at once"
      evaluation_criteria := ["array_understanding", "complex_calculations", "efficiency"] },
    { id := "advanced_4"
      text := "Explain how to use the CHOOSE function with a practical example."
      category := "advanced_functions"
      difficulty := 6.5
      expected_answer := "CHOOSE(index_num, value1, value2, ...) returns value based on index. Example: =CHOOSE(2,\"Red\",\"Blue\",\"Green\") returns \"Blue\""
      evaluation_criteria := ["function_understanding", "practical_application", "syntax_knowledge"] },
    { id := "automation_1"
      text := "Describe how you would automate a monthly report generation process in Excel."
      category := "automation"
      difficulty := 9.0
      expected_answer := "Use VBA macros, Power Query for data refresh, pivot tables, scheduled tasks."
      evaluation_criteria := ["automation_knowledge", "vba_understanding", "process_thinking"] },
    { id := "automation_2"
      text := "What's the difference between recording a macro and writing VBA code manually?"
      category := "automation"
      difficulty := 7.5
      expected_answer := "Recorded macros capture exact steps, manual VBA allows logic, loops, conditions, more flexible"
      evaluation_criteria := ["macro_understanding", "vba_knowledge", "flexibility_concepts"] },
    { id := "automation_3"
      text := "How would you create a user form in Excel to collect data input?"
      category := "automation"
      difficulty := 8.5
      expected_answer := "VBA Editor > Insert UserForm, add controls, write VBA code for events and data handling"
      evaluation_criteria := ["userform_knowledge", "vba_skills", "ui_design"] },
    { id := "automation_4"
      text := "Explain how to use Excel's Power Query to import and transform data from multiple sources."
      category := "automation"
      difficulty := 8.0
      expected_answer := "Data > Get Data, connect to sources, use Power Query Editor for transformations, load to worksheet"
      evaluation_criteria := ["power_query_knowledge", "data_transformation", "modern_excel_features"] } ]

/-- Stable insertion into a key-sorted list: the new element goes after every
element whose key is `≤` its own, matching Python's stable `sorted`. -/
def insertByKey (key : Question → ℚ) (x : Question) : List Question → List Question
  | [] => [x]
  | y :: ys => if key y ≤ key x then y :: insertByKey key x ys else x :: y :: ys

/-- Stable sort by key (Python `sorted(xs, key=...)`). -/
def sortByKey (key : Question → ℚ) (l : List Question) : List Question :=
  l.foldl (fun acc x => insertByKey key x acc) []

/-- The primary filter of `QuestionBank.get_question_by_difficulty`:
not excluded, `|difficulty − target| ≤ 2.0`, category match if requested. -/
def suitableFilter (target_difficulty : ℚ) (category : Option String)
    (exclude_ids : List String) (q : Question) : Bool :=
  !(exclude_ids.contains q.id) &&
    pyAbs (q.difficulty - target_difficulty) ≤ 2 &&
    (category.elim true (fun c => q.category == c))

/-- The relaxed fallback filter: not excluded, category match if requested. -/
def categoryFilter (category : Option String) (exclude_ids : List String)
    (q : Question) : Bool :=
  !(exclude_ids.contains q.id) && (category.elim true (fun c => q.category == c))

/-- `QuestionBank.get_question_by_difficulty(target_difficulty, category,
exclude_ids)` over the bank's question list. -/
def get_question_by_difficulty (questions : List Question) (target_difficulty : ℚ)
    (category : Option String) (exclude_ids : List String) : Option Question :=
  let suitable_questions := questions.filter (suitableFilter target_difficulty category exclude_ids)
  let suitable_questions :=
    if suitable_questions.isEmpty then
      let category_questions := questions.filter (categoryFilter category exclude_ids)
      if !category_questions.isEmpty then
        sortByKey (fun q => pyAbs (q.difficulty - target_difficulty)) category_questions
      else suitable_questions
    else suitable_questions
  suitable_questions.head?

/-! ## `DifficultyManager` (`src/services/difficulty_manager.py`) -/

/-- The mutable state of a `DifficultyManager` instance. -/
structure DifficultyManager where
  current_difficulty : ℚ
  performance_history : List ℚ
  min_difficulty : ℚ
  max_difficulty : ℚ
  deriving DecidableEq, Repr

/-- `DifficultyManager.__init__()` (the undefined `settings.*` attributes are
spec-modelled above). -/
def DifficultyManager.init : DifficultyManager :=
  { current_difficulty := DEFAULT_DIFFICULTY
    performance_history := []
    min_difficulty := MIN_DIFFICULTY
    max_difficulty := MAX_DIFFICULTY }

/-- `DifficultyManager._calculate_trend()`: `(recent[-1] - recent[0]) / 2`
over the last three history entries. -/
def calculate_trend (performance_history : List ℚ) : ℚ :=
  if performance_history.length < 3 then 0
  else
    let recent := performance_history.drop (performance_history.length - 3)
    ((recent.getLastD 0) - (recent.headD 0)) / 2

/-- `DifficultyManager.calculate_adjustment(response_quality, time_taken,
question_difficulty)`: returns the updated manager state and the returned
new difficulty. -/
def calculate_adjustment (m : DifficultyManager) (response_quality time_taken
    question_difficulty : ℚ) : DifficultyManager × ℚ :=
  let base_adjustment : ℚ :=
    if 0.8 ≤ response_quality then 1.5
    else if 0.6 ≤ response_quality then 0.5
    else if 0.4 ≤ response_quality then -1.0
    else -2.0
  let expected_time := question_difficulty * 30
  let base_adjustment :=
    if time_taken < expected_time * 0.7 then base_adjustment + 0.5
    else if expected_time * 2 < time_taken then base_adjustment - 0.5
    else base_adjustment
  let performance_history := m.performance_history ++ [response_quality]
  let base_adjustment :=
    if 3 ≤ performance_history.length then
      let recent_trend := calculate_trend performance_history
      if 0.1 < recent_trend then base_adjustment + 0.3
      else if recent_trend < -0.1 then base_adjustment - 0.3
      else base_adjustment
    else base_adjustment
  let new_difficulty :=
    pyMax m.min_difficulty (pyMin m.max_difficulty (m.current_difficulty + base_adjustment))
  ({ m with current_difficulty := new_difficulty,
            performance_history := performance_history },
   new_difficulty)

/-! ## `QuestionGenerator` (`src/services/question_generator.py`) -/

/-- Outcome of the generation call in `generate_ai_question`. -/
inductive GenOutcome where
  | callRaises
  | returnsText (t : String)

/-- `QuestionGenerator.generate_ai_question(difficulty, category)`.  When the
model is configured and the call returns, `question_data` is the *string*
`response.text`, so `question_data.get('question_text', '')` raises
`AttributeError`, which the `except Exception` handler turns into `None`;
a raising call is handled the same way. -/
def generate_ai_question (model : Bool) (provider : GenOutcome) (_difficulty : ℚ)
    (_category : Option String) : Option Question :=
  if !model then none
  else
    match provider with
    | .callRaises => none
    | .returnsText _ => none

/-- `QuestionGenerator._select_target_category(all_categories,
used_categories, preferred_category)`. -/
def select_target_category (all_categories used_categories : List String)
    (preferred_category : Option String) : Option String :=
  let rest :=
    let unused_categories := all_categories.filter (fun c => !(used_categories.contains c))
    if !unused_categories.isEmpty then unused_categories.head?
    else if !all_categories.isEmpty then
      all_categories.get? (used_categories.length % all_categories.length)
    else none
  match preferred_category with
  | some p => if all_categories.contains p then some p else rest
  | none => rest

/-- The first statement of `QuestionGenerator.get_next_question` is
`super().get_next_question(...)`; `QuestionGenerator`'s only base class is
`object`, which has no such attribute, so the lookup raises
`AttributeError`. -/
def superGetNextQuestion (_target_difficulty : ℚ) (_used_categories : List String)
    (_preferred_category : Option String) : Except PyErr (Option Question) :=
  .error .attributeError

/-- `QuestionGenerator.get_next_question(target_difficulty, used_categories,
preferred_category)`: the body after the `super()` call is translated
faithfully but is unreachable.  Returns the possibly found question and the
updated `used_questions` list. -/
def get_next_question (model : Bool) (provider : GenOutcome)
    (bank_categories used_questions : List String) (target_difficulty : ℚ)
    (used_categories : List String) (preferred_category : Option String) :
    Except PyErr (Option Question × List String) := do
  let question ← superGetNextQuestion target_difficulty used_categories preferred_category
  let question :=
    if question.isNone && model then
      let target_category :=
        select_target_category bank_categories used_categories preferred_category
      generate_ai_question model provider target_difficulty target_category
    else question
  let used_questions :=
    match question with
    | some q => used_questions ++ [q.id]
    | none => used_questions
  return (question, used_questions)

/-! ## `ExcelQuestion` (`src/models/question.py`)

Only the fields and the `__post_init__` validation relevant to the claims
are modelled; the datetime/usage metadata fields play no part in any
claim. -/

/-- The `ExcelQuestion` dataclass core fields. -/
structure ExcelQuestion where
  question_id : String
  text : String
  category : String
  difficulty : ℚ
  model_answer : String
  evaluation_criteria : List String
  deriving DecidableEq, Repr

/-- `ExcelQuestion` construction including `__post_init__`: difficulty
outside `[1, 10]` or blank text raises `ValueError`. -/
def mkExcelQuestion (question_id text category : String) (difficulty : ℚ)
    (model_answer : String) (evaluation_criteria : List String) :
    Except PyErr ExcelQuestion :=
  if ¬(1 ≤ difficulty ∧ difficulty ≤ 10) then
    .error (.valueError "Difficulty must be between 1 and 10")
  else if pyStrip text = "" then
    .error (.valueError "Question text cannot be empty")
  else
    .ok { question_id := question_id
          text := text
          category := category
          difficulty := difficulty
          model_answer := model_answer
          evaluation_criteria := evaluation_criteria }

/-! ## Evaluation models (`src/models/evaluation.py`) -/

/-- The `ScoreLevel` enum members. -/
inductive ScoreLevel where
  | EXCELLENT
  | GOOD
  | SATISFACTORY
  | NEEDS_IMPROVEMENT
  deriving DecidableEq, Repr

/-- The `min_score` of each `ScoreLevel` band. -/
def ScoreLevel.min_score : ScoreLevel → ℚ
  | .EXCELLENT => 0.9
  | .GOOD => 0.7
  | .SATISFACTORY => 0.5
  | .NEEDS_IMPROVEMENT => 0.0

/-- The `max_score` of each `ScoreLevel` band. -/
def ScoreLevel.max_score : ScoreLevel → ℚ
  | .EXCELLENT => 1.0
  | .GOOD => 0.89
  | .SATISFACTORY => 0.69
  | .NEEDS_IMPROVEMENT => 0.49

/-- The enum members in declaration order, as `for level in cls` iterates. -/
def scoreLevelMembers : List ScoreLevel :=
  [.EXCELLENT, .GOOD, .SATISFACTORY, .NEEDS_IMPROVEMENT]

/-- The `for level in cls` loop of `ScoreLevel.from_score`: the first member
whose inclusive `[min_score, max_score]` band contains the score. -/
def findLevel (score : ℚ) : List ScoreLevel → Option ScoreLevel
  | [] => none
  | l :: rest =>
    if l.min_score ≤ score ∧ score ≤ l.max_score then some l
    else findLevel score rest

/-- `ScoreLevel.from_score(score)`: first member whose inclusive band
contains the score, defaulting to `NEEDS_IMPROVEMENT`. -/
def ScoreLevel.from_score (score : ℚ) : ScoreLevel :=
  match findLevel score scoreLevelMembers with
  | some l => l
  | none => .NEEDS_IMPROVEMENT

/-- The `ScoreBreakdown` dataclass (justification and keyword lists carried
verbatim). -/
structure ScoreBreakdown where
  raw_score : ℚ
  weighted_score : ℚ
  level : ScoreLevel
  justification : String
  keywords_found : List String := []
  missing_elements : List String := []
  bonus_points : ℚ := 0.0
  penalty_points : ℚ := 0.0
  deriving DecidableEq, Repr

/-- The `AnswerEvaluation` dataclass: the fields that take part in metric
updates and in `__post_init__`'s breakdown-level assignment (datetime and
version metadata omitted). -/
structure AnswerEvaluation where
  answer_text : String
  question_id : String
  technical_score : ℚ
  approach_score : ℚ
  communication_score : ℚ
  overall_score : ℚ
  technical_breakdown : Option ScoreBreakdown := none
  approach_breakdown : Option ScoreBreakdown := none
  communication_breakdown : Option ScoreBreakdown := none
  strengths : List String := []
  improvements : List String := []
  specific_feedback : String := ""
  deriving DecidableEq, Repr

/-- The breakdown-level assignment in `AnswerEvaluation.__post_init__`: each
present breakdown's `level` is overwritten with `ScoreLevel.from_score`
applied to the corresponding 0–10-scale dimension score. -/
def setBreakdownLevels (e : AnswerEvaluation) : AnswerEvaluation :=
  { e with
    technical_breakdown :=
      e.technical_breakdown.map (fun b => { b with level := .from_score e.technical_score })
    approach_breakdown :=
      e.approach_breakdown.map (fun b => { b with level := .from_score e.approach_score })
    communication_breakdown :=
      e.communication_breakdown.map
        (fun b => { b with level := .from_score e.communication_score }) }

/-! ## Interview session models (`src/models/interview.py`) -/

/-- The `ConversationTurn` dataclass (uuid and timestamp omitted). -/
structure ConversationTurn where
  speaker : String := ""
  message : String := ""
  question_id : Option String := none
  response_time : Option ℚ := none
  evaluation : Option AnswerEvaluation := none
  deriving DecidableEq, Repr

/-- The `InterviewMetrics` dataclass. -/
structure InterviewMetrics where
  total_questions : Nat := 0
  questions_answered : Nat := 0
  avg_response_time : ℚ := 0.0
  difficulty_progression : List ℚ := []
  technical_scores : List ℚ := []
  approach_scores : List ℚ := []
  communication_scores : List ℚ := []
  overall_scores : List ℚ := []
  avg_technical : ℚ := 0.0
  avg_approach : ℚ := 0.0
  avg_communication : ℚ := 0.0
  overall_score : ℚ := 0.0
  deriving DecidableEq, Repr

/-- The `InterviewSession` fields touched by the modelled methods. -/
structure InterviewSession where
  conversation : List ConversationTurn := []
  questions_asked : List String := []
  current_difficulty : ℚ := 5.0
  metrics : InterviewMetrics := {}
  deriving DecidableEq, Repr

/-- Python truthiness of `turn.response_time` (an `Optional[float]`):
falsy when `None` or `0.0`. -/
def responseTimeTruthy : Option ℚ → Bool
  | none => false
  | some rt => rt ≠ 0

/-- `InterviewSession.add_conversation_turn(turn)`. -/
def add_conversation_turn (s : InterviewSession) (turn : ConversationTurn) :
    InterviewSession :=
  let s := { s with conversation := s.conversation ++ [turn] }
  match turn.evaluation with
  | some eval_data =>
    if turn.speaker = "candidate" then
      let m := s.metrics
      let m := { m with
        technical_scores := m.technical_scores ++ [eval_data.technical_score]
        approach_scores := m.approach_scores ++ [eval_data.approach_score]
        communication_scores := m.communication_scores ++ [eval_data.communication_score]
        overall_scores := m.overall_scores ++ [eval_data.overall_score] }
      let m :=
        match turn.response_time with
        | some rt =>
          if rt ≠ 0 then
            let total_time := m.avg_response_time * (m.questions_answered : ℚ)
            let questions_answered := m.questions_answered + 1
            { m with
              questions_answered := questions_answered
              avg_response_time := (total_time + rt) / (questions_answered : ℚ) }
          else m
        | none => m
      { s with metrics := m }
    else s
  | none => s

/-! ## `ReportGenerator` (`src/services/report_generator.py`) -/

/-- Modelled from the spec: `_assess_skill_level` reads
`session.get_average_score()`, a method the `InterviewSession` model never
defines; per §4.6 the session's overall score is the average of the
responses' overall evaluation scores. -/
def get_average_score (scores : List ℚ) : ℚ :=
  scores.sum / scores.length

/-- `max(q.difficulty for q in session.questions_asked)` with the code's
guard: `0` for an empty list. -/
def maxDifficultyAsked : List ℚ → ℚ
  | [] => 0
  | d :: ds => ds.foldl pyMax d

/-- The skill-level decision chain of `ReportGenerator._assess_skill_level`. -/
def assess_skill_level (avg_score max_difficulty : ℚ) : String :=
  if 8 ≤ avg_score ∧ 7 ≤ max_difficulty then "Expert"
  else if 6 ≤ avg_score ∧ 5 ≤ max_difficulty then "Advanced"
  else if 4 ≤ avg_score ∧ 3 ≤ max_difficulty then "Intermediate"
  else "Beginner"

/-- The hiring-recommendation chain of `ReportGenerator._assess_skill_level`. -/
def hiring_recommendation (avg_score : ℚ) : String :=
  if 7 ≤ avg_score then "Strong Recommend"
  else if 5 ≤ avg_score then "Recommend with Training"
  else if 3 ≤ avg_score then "Consider for Junior Roles"
  else "Not Recommended"

/-! ## Auxiliary definitions used for concrete instantiations -/

/-- The `i`-th question of the hardcoded bank (`bankQuestion 0` is
`basic_1`, `bankQuestion 2` is `basic_3`, …). -/
def bankQuestion (i : Nat) : Question :=
  bankQuestions.getD i default

/-- A sample `AnswerEvaluation`, used to instantiate quantified theorems. -/
def demoEvaluation : AnswerEvaluation :=
  { answer_text := "Use the SUM function."
    question_id := "basic_1"
    technical_score := 7
    approach_score := 6
    communication_score := 5
    overall_score := 6.1 }

/-- A sample candidate turn carrying an evaluation but no response time. -/
def demoTurn : ConversationTurn :=
  { speaker := "candidate"
    message := "Use the SUM function."
    response_time := none
    evaluation := some demoEvaluation }

/-- A sample `AnswerEvaluation` carrying a technical breakdown, for the
`__post_init__` level-assignment instantiation. -/
def demoBreakdownEvaluation : AnswerEvaluation :=
  { answer_text := "Use the SUM function."
    question_id := "basic_1"
    technical_score := 7
    approach_score := 6
    communication_score := 5
    overall_score := 6.1
    technical_breakdown :=
      some { raw_score := 7, weighted_score := 2.8, level := .GOOD, justification := "keywords" } }

/-! ## Claim-side restatements

The following definitions transcribe the *claims'* wording (not the code);
the theorems below relate them to the embedded code. -/

/-- The claim's base adjustment table: +1.5 if quality ≥ 0.8, +0.5 if ≥ 0.6,
−1.0 if ≥ 0.4, else −2.0. -/
def specBaseAdjustment (quality : ℚ) : ℚ :=
  if 0.8 ≤ quality then 1.5
  else if 0.6 ≤ quality then 0.5
  else if 0.4 ≤ quality then -1.0
  else -2.0

/-- The claim's timing adjustment: +0.5 if `time_taken` < 0.7 × (difficulty ×
30), −0.5 if `time_taken` > 2 × that expected time, else 0. -/
def specTimingAdjustment (time_taken question_difficulty : ℚ) : ℚ :=
  if time_taken < 0.7 * (question_difficulty * 30) then 0.5
  else if 2 * (question_difficulty * 30) < time_taken then -0.5
  else 0

/-- The claim's trend adjustment, applied only once at least three quality
samples (the prior history plus the current quality) are recorded:
+0.3 when (latest − third-from-latest)/2 > 0.1, −0.3 when it is < −0.1. -/
def specTrendAdjustment (history : List ℚ) (quality : ℚ) : ℚ :=
  let samples := history ++ [quality]
  if 3 ≤ samples.length then
    let trend := (samples.getLastD 0 - samples.getD (samples.length - 3) 0) / 2
    if 0.1 < trend then 0.3
    else if trend < -0.1 then -0.3
    else 0
  else 0

/-! ## Basic lemmas about the Python-style primitives -/

theorem pyMin_le_left (a b : ℚ) : pyMin a b ≤ a := by
  unfold pyMin; split <;> linarith

theorem pyMin_nonneg (a b : ℚ) (ha : 0 ≤ a) (hb : 0 ≤ b) : 0 ≤ pyMin a b := by
  unfold pyMin; split <;> assumption

theorem calculate_technical_score_nonneg (r e : String) (q : Question) :
    0 ≤ calculate_technical_score r e q := by
  have h : 0 ≤ pyMin 6 ((commonCount e r : ℚ) * 2) :=
    pyMin_nonneg _ _ (by norm_num) (by positivity)
  simp only [calculate_technical_score]
  apply pyMin_nonneg _ _ (by norm_num)
  split_ifs <;> linarith

theorem calculate_technical_score_le (r e : String) (q : Question) :
    calculate_technical_score r e q ≤ 10 := by
  simp only [calculate_technical_score]
  exact pyMin_le_left _ _

theorem calculate_approach_score_nonneg (r : String) :
    0 ≤ calculate_approach_score r := by
  simp only [calculate_approach_score]
  apply pyMin_nonneg _ _ (by norm_num)
  split_ifs <;> norm_num

theorem calculate_approach_score_le (r : String) :
    calculate_approach_score r ≤ 10 := by
  simp only [calculate_approach_score]
  exact pyMin_le_left _ _

theorem calculate_communication_score_nonneg (r : String) :
    0 ≤ calculate_communication_score r := by
  simp only [calculate_communication_score]
  apply pyMin_nonneg _ _ (by norm_num)
  split_ifs <;> norm_num

theorem calculate_communication_score_le (r : String) :
    calculate_communication_score r ≤ 10 := by
  simp only [calculate_communication_score]
  exact pyMin_le_left _ _

theorem head?_mem {α : Type} {l : List α} {x : α} (h : l.head? = some x) : x ∈ l := by
  cases l with
  | nil => simp at h
  | cons a t => simp at h; simp [h]

theorem mem_insertByKey (key : Question → ℚ) (a x : Question) (l : List Question) :
    x ∈ insertByKey key a l ↔ x = a ∨ x ∈ l := by
  induction l with
  | nil => simp [insertByKey]
  | cons y ys ih =>
    unfold insertByKey
    split_ifs <;> simp [ih] <;> tauto

theorem mem_sortByKey (key : Question → ℚ) (l : List Question) (x : Question) :
    x ∈ sortByKey key l ↔ x ∈ l := by
  suffices h : ∀ acc, x ∈ l.foldl (fun acc y => insertByKey key y acc) acc ↔
      x ∈ acc ∨ x ∈ l by
    simpa [sortByKey] using (h [])
  induction l with
  | nil => intro acc; simp
  | cons y ys ih =>
    intro acc
    simp only [List.foldl_cons, ih, mem_insertByKey, List.mem_cons]
    tauto

theorem headD_drop (l : List ℚ) (k : Nat) : (l.drop k).headD 0 = l.getD k 0 := by
  induction l generalizing k with
  | nil => simp
  | cons x t ih =>
    cases k with
    | zero => simp
    | succ k => simpa using ih k

theorem getLastD_ne_nil (l : List ℚ) (a b : ℚ) (h : l ≠ []) :
    l.getLastD a = l.getLastD b := by
  rw [List.getLastD_eq_getLast?, List.getLastD_eq_getLast?]
  obtain ⟨y, hy⟩ := Option.isSome_iff_exists.mp (List.getLast?_isSome.mpr h)
  rw [hy]
  rfl

theorem getLastD_drop (l : List ℚ) (k : Nat) (h : k < l.length) :
    (l.drop k).getLastD 0 = l.getLastD 0 := by
  induction l generalizing k with
  | nil => simp at h
  | cons x t ih =>
    cases k with
    | zero => rfl
    | succ k =>
      have hk : k < t.length := by simpa using h
      have ht : t ≠ [] := by
        intro he
        rw [he] at hk
        simp at hk
      calc ((x :: t).drop (k + 1)).getLastD 0 = (t.drop k).getLastD 0 := rfl
        _ = t.getLastD 0 := ih k hk
        _ = t.getLastD x := getLastD_ne_nil t 0 x ht
        _ = (x :: t).getLastD 0 := (List.getLastD_cons 0 x t).symm

theorem calculate_trend_eq (l : List ℚ) (h : 3 ≤ l.length) :
    calculate_trend l = (l.getLastD 0 - l.getD (l.length - 3) 0) / 2 := by
  have h1 := headD_drop l (l.length - 3)
  have h2 := getLastD_drop l (l.length - 3) (by omega)
  unfold calculate_trend
  rw [if_neg (by omega)]
  simp only [h1, h2]

theorem from_score_eq (s' : ℚ) :
    ScoreLevel.from_score s' =
      if 0.9 ≤ s' ∧ s' ≤ 1 then .EXCELLENT
      else if 0.7 ≤ s' ∧ s' ≤ 0.89 then .GOOD
      else if 0.5 ≤ s' ∧ s' ≤ 0.69 then .SATISFACTORY
      else .NEEDS_IMPROVEMENT := by
  have h10 : (1.0 : ℚ) = 1 := by norm_num
  have h00 : (0.0 : ℚ) = 0 := by norm_num
  unfold ScoreLevel.from_score scoreLevelMembers
  simp only [findLevel, ScoreLevel.min_score, ScoreLevel.max_score, h10, h00]
  split_ifs with h1 h2 h3 h4 <;> rfl

/-! ## The claims -/

/-- Claim C1.  The claim states that `evaluate_response` never raises and
falls through to the heuristic evaluation on any provider failure.  The code
contradicts it: when the provider's text does not parse as JSON, both
`except` handlers call `_fallback_evaluation` on the *rebound* `response`
(the provider response object), whose `.lower()` raises `AttributeError`,
which propagates to the caller.  The provider-call-failure and no-client
paths do return the heuristic result as claimed. -/
theorem evaluate_response_error_paths :
    evaluate_response true (.nonJsonText "Sure! Here is my evaluation.") (bankQuestion 0)
        "hello" = .error .attributeError ∧
    evaluate_response true .callRaises (bankQuestion 0) "hello" =
      .ok (fallback_evaluation (bankQuestion 0) "hello") ∧
    evaluate_response false .callRaises (bankQuestion 0) "hello" =
      .ok (fallback_evaluation (bankQuestion 0) "hello") :=
  ⟨rfl, rfl, rfl⟩

/-- Claim C2.  The three dimension scores of a heuristic evaluation each lie
in [0, 10] as claimed, but `overall_score` is the weighted mean of the three
0–10 dimension scores multiplied once more by 10, so it ranges over [0, 100]:
for bank question `basic_1` and the response "hello" it is 33, not in
[0, 10]. -/
theorem fallback_evaluation_dimension_ranges_and_overall_overflow :
    (∀ (q : Question) (r : String),
      (0 ≤ (fallback_evaluation q r).technical_score ∧
        (fallback_evaluation q r).technical_score ≤ 10) ∧
      (0 ≤ (fallback_evaluation q r).approach_score ∧
        (fallback_evaluation q r).approach_score ≤ 10) ∧
      (0 ≤ (fallback_evaluation q r).communication_score ∧
        (fallback_evaluation q r).communication_score ≤ 10)) ∧
    (fallback_evaluation (bankQuestion 0) "hello").overall_score = 33 ∧
    ¬((fallback_evaluation (bankQuestion 0) "hello").overall_score ≤ 10) := by
  refine ⟨fun q r => ?_, ?_, ?_⟩
  · dsimp only [fallback_evaluation]
    exact ⟨⟨calculate_technical_score_nonneg _ _ _, calculate_technical_score_le _ _ _⟩,
      ⟨calculate_approach_score_nonneg _, calculate_approach_score_le _⟩,
      ⟨calculate_communication_score_nonneg _, calculate_communication_score_le _⟩⟩
  · with_unfolding_all rfl
  · have h : (fallback_evaluation (bankQuestion 0) "hello").overall_score = 33 := by
      with_unfolding_all rfl
    rw [h]; norm_num

/-- Claim C3.  The claim states that `get_next_question` returns `None`
rather than raising when no question can be found.  In the code the very
first statement is `super().get_next_question(...)` on a class whose only
base is `object`, so every call raises `AttributeError` before the bank or
the provider is ever consulted. -/
theorem get_next_question_always_raises (model : Bool) (provider : GenOutcome)
    (bank_categories used_questions : List String) (target_difficulty : ℚ)
    (used_categories : List String) (preferred_category : Option String) :
    get_next_question model provider bank_categories used_questions target_difficulty
      used_categories preferred_category = .error .attributeError := rfl

/-- Claim C4.  `calculate_adjustment` stores and returns
`clamp(current + base + timing + trend, min_difficulty, max_difficulty)` with
the claimed base tiers, timing bonus/penalty and (once three quality samples
are recorded) trend term, and the history grows by the current quality; on
the quality sequence [0.9, 0.85, 0.3] the third call's trend contribution is
−0.3, i.e. negative. -/
theorem calculate_adjustment_formula (m : DifficultyManager) (q t qd : ℚ) :
    (calculate_adjustment m q t qd).2 =
      pyMax m.min_difficulty (pyMin m.max_difficulty
        (m.current_difficulty + (specBaseAdjustment q + specTimingAdjustment t qd +
          specTrendAdjustment m.performance_history q))) ∧
    (calculate_adjustment m q t qd).1.current_difficulty =
      (calculate_adjustment m q t qd).2 ∧
    (calculate_adjustment m q t qd).1.performance_history =
      m.performance_history ++ [q] ∧
    (calculate_adjustment m q t qd).1.min_difficulty = m.min_difficulty ∧
    (calculate_adjustment m q t qd).1.max_difficulty = m.max_difficulty ∧
    specTrendAdjustment [0.9, 0.85] 0.3 = -0.3 := by
  have htiming : ∀ b : ℚ,
      (if t < qd * 30 * 0.7 then b + 0.5
       else if qd * 30 * 2 < t then b - 0.5 else b) =
        b + specTimingAdjustment t qd := by
    intro b
    unfold specTimingAdjustment
    have e1 : (0.7 : ℚ) * (qd * 30) = qd * 30 * 0.7 := by ring
    have e2 : (2 : ℚ) * (qd * 30) = qd * 30 * 2 := by ring
    rw [e1, e2]
    split_ifs <;> ring
  have htrend : ∀ X : ℚ,
      (if 3 ≤ (m.performance_history ++ [q]).length then
        if 0.1 < calculate_trend (m.performance_history ++ [q]) then X + 0.3
        else if calculate_trend (m.performance_history ++ [q]) < -0.1 then X - 0.3
        else X
       else X) = X + specTrendAdjustment m.performance_history q := by
    intro X
    simp only [specTrendAdjustment]
    by_cases hlen : 3 ≤ (m.performance_history ++ [q]).length
    · rw [if_pos hlen, if_pos hlen, calculate_trend_eq _ hlen]
      split_ifs <;> ring
    · rw [if_neg hlen, if_neg hlen]; ring
  refine ⟨?_, rfl, rfl, rfl, rfl, by with_unfolding_all rfl⟩
  simp only [calculate_adjustment, specBaseAdjustment]
  rw [htrend, htiming]

/-- Claim C5 counterexample.  The claim states that a question constructed
with a difficulty outside [1, 10] has its difficulty clamped and the
construction succeeds; in the code `ExcelQuestion.__post_init__` raises
`ValueError` instead, so construction at difficulty 11 fails. -/
theorem excelQuestion_out_of_range_rejected :
    mkExcelQuestion "persisted_1" "What does VLOOKUP do?" "basic_formulas" 11
        "Looks up a value." ["accuracy"] =
      .error (.valueError "Difficulty must be between 1 and 10") := by
  with_unfolding_all rfl

/-- Claim C5, amended.  Constructing an `ExcelQuestion` with difficulty
outside [1, 10] raises `ValueError` — the question is rejected, never
clamped.  The three implications cover every input, so construction
succeeds, with the difficulty stored unchanged, exactly for in-range
difficulties with non-blank text: blank text is rejected by the separate
text-validation `ValueError`. -/
theorem excelQuestion_construction_validation (question_id text category : String)
    (d : ℚ) (ans : String) (crit : List String) :
    ((d < 1 ∨ 10 < d) →
      mkExcelQuestion question_id text category d ans crit =
        .error (.valueError "Difficulty must be between 1 and 10")) ∧
    (1 ≤ d → d ≤ 10 → pyStrip text = "" →
      mkExcelQuestion question_id text category d ans crit =
        .error (.valueError "Question text cannot be empty")) ∧
    (1 ≤ d → d ≤ 10 → pyStrip text ≠ "" →
      mkExcelQuestion question_id text category d ans crit =
        .ok { question_id := question_id, text := text, category := category,
              difficulty := d, model_answer := ans, evaluation_criteria := crit }) := by
  unfold mkExcelQuestion
  refine ⟨?_, ?_, ?_⟩
  · intro hd
    rw [if_pos]
    rintro ⟨h1, h2⟩
    rcases hd with h | h <;> linarith
  · intro h1 h2 ht
    rw [if_neg (not_not_intro ⟨h1, h2⟩), if_pos ht]
  · intro h1 h2 ht
    rw [if_neg (not_not_intro ⟨h1, h2⟩), if_neg ht]

/-- Witness for the amended claim C5: difficulty 11 is rejected, an in-range
difficulty with blank text is rejected by the text check, and an in-range
difficulty with non-blank text constructs the question unchanged. -/
theorem excelQuestion_construction_validation_witness :
    mkExcelQuestion "q1" "Why?" "basic_formulas" 11 "Because." [] =
      .error (.valueError "Difficulty must be between 1 and 10") ∧
    mkExcelQuestion "q1" "   " "basic_formulas" 5 "Because." [] =
      .error (.valueError "Question text cannot be empty") ∧
    mkExcelQuestion "q1" "Why?" "basic_formulas" 5 "Because." [] =
      .ok { question_id := "q1", text := "Why?", category := "basic_formulas",
            difficulty := 5, model_answer := "Because.", evaluation_criteria := [] } :=
  ⟨(excelQuestion_construction_validation "q1" "Why?" "basic_formulas" 11 "Because." []).1
      (by norm_num),
   (excelQuestion_construction_validation "q1" "   " "basic_formulas" 5 "Because." []).2.1
      (by norm_num) (by norm_num) (by decide),
   (excelQuestion_construction_validation "q1" "Why?" "basic_formulas" 5 "Because." []).2.2
      (by norm_num) (by norm_num) (by decide)⟩

/-- Claim C6.  Skill-level classification is the ordered first-match table of
`_assess_skill_level`: average ≥ 8 with max difficulty ≥ 7 gives Expert,
average ≥ 6 with max difficulty ≥ 5 gives Advanced, average ≥ 4 with max
difficulty ≥ 3 gives Intermediate, otherwise Beginner; and a session whose
answered overall scores are [9, 8, 9] is Expert exactly when the maximum
difficulty asked is ≥ 7, falling to Advanced or lower otherwise. -/
theorem skill_level_table :
    (∀ avg maxd : ℚ,
      (assess_skill_level avg maxd = "Expert" ↔ 8 ≤ avg ∧ 7 ≤ maxd) ∧
      (assess_skill_level avg maxd = "Advanced" ↔
        ¬(8 ≤ avg ∧ 7 ≤ maxd) ∧ 6 ≤ avg ∧ 5 ≤ maxd) ∧
      (assess_skill_level avg maxd = "Intermediate" ↔
        ¬(8 ≤ avg ∧ 7 ≤ maxd) ∧ ¬(6 ≤ avg ∧ 5 ≤ maxd) ∧ 4 ≤ avg ∧ 3 ≤ maxd) ∧
      (assess_skill_level avg maxd = "Beginner" ↔
        ¬(8 ≤ avg ∧ 7 ≤ maxd) ∧ ¬(6 ≤ avg ∧ 5 ≤ maxd) ∧ ¬(4 ≤ avg ∧ 3 ≤ maxd))) ∧
    (∀ maxd : ℚ,
      (assess_skill_level (get_average_score [9, 8, 9]) maxd = "Expert" ↔ 7 ≤ maxd) ∧
      (maxd < 7 →
        assess_skill_level (get_average_score [9, 8, 9]) maxd = "Advanced" ∨
        assess_skill_level (get_average_score [9, 8, 9]) maxd = "Intermediate" ∨
        assess_skill_level (get_average_score [9, 8, 9]) maxd = "Beginner")) := by
  have havg : get_average_score [9, 8, 9] = 26 / 3 := by
    norm_num [get_average_score]
  constructor
  · intro avg maxd
    unfold assess_skill_level
    split_ifs with h1 h2 h3 <;> refine ⟨?_, ?_, ?_, ?_⟩ <;> simp_all
  · intro maxd
    rw [havg]
    have h8 : (8 : ℚ) ≤ 26 / 3 := by norm_num
    have h6 : (6 : ℚ) ≤ 26 / 3 := by norm_num
    constructor
    · unfold assess_skill_level
      split_ifs with h1 h2 h3 <;> simp_all
    · intro hlt
      have hnot : ¬((8 : ℚ) ≤ 26 / 3 ∧ 7 ≤ maxd) := by rintro ⟨-, h7⟩; linarith
      unfold assess_skill_level
      rw [if_neg hnot]
      split_ifs <;> simp

/-- Witness for claim C6: averages 9 and 26/3 with max difficulties 8 and 5. -/
theorem skill_level_table_witness :
    assess_skill_level 9 8 = "Expert" ∧
    (assess_skill_level (get_average_score [9, 8, 9]) 5 = "Advanced" ∨
      assess_skill_level (get_average_score [9, 8, 9]) 5 = "Intermediate" ∨
      assess_skill_level (get_average_score [9, 8, 9]) 5 = "Beginner") :=
  ⟨(skill_level_table.1 9 8).1.mpr ⟨by norm_num, by norm_num⟩,
   (skill_level_table.2 5).2 (by norm_num)⟩

/-- Claim C7 counterexample.  `basic_1` is a formula-category question whose
model answer is the single word "=SUM(A1:A10)"; a response exactly equal to
it earns only 2 shared-word points plus the two formula bonuses, for a
technical score of 6 < 7, refuting the claim for this question. -/
theorem technical_score_model_answer_below_seven :
    (bankQuestion 0).category = "basic_formulas" ∧
    (fallback_evaluation (bankQuestion 0) ((bankQuestion 0).expected_answer)).technical_score
      < 7 := by
  have h : (fallback_evaluation (bankQuestion 0)
      ((bankQuestion 0).expected_answer)).technical_score = 6 := by
    with_unfolding_all rfl
  exact ⟨rfl, by rw [h]; norm_num⟩

/-- Claim C7, amended.  For a formula-category question, a response equal to
the model answer scores technical_score ≥ 7 provided the answer contains an
equals-sign expression, names a recognized function keyword, and shares at
least two distinct words with the model answer; a one-word model answer such
as `basic_1`'s reaches only 6. -/
theorem technical_score_model_answer_bound (q : Question)
    (hcat : q.category = "basic_formulas" ∨ q.category = "data_analysis")
    (heq : pyIn "=" (pyStrip (pyLower q.expected_answer)) = true)
    (hfn : (functionKeywords.any
      (fun f => pyIn f (pyUpper (pyStrip (pyLower q.expected_answer))))) = true)
    (hw : 2 ≤ commonCount (pyLower q.expected_answer) (pyStrip (pyLower q.expected_answer))) :
    7 ≤ (fallback_evaluation q q.expected_answer).technical_score := by
  dsimp only [fallback_evaluation]
  simp only [calculate_technical_score]
  rw [if_pos hcat, if_pos heq, if_pos hfn,
    if_pos (lt_of_lt_of_le (by norm_num) hw)]
  have hc : (2 : ℚ) ≤
      (commonCount (pyLower q.expected_answer) (pyStrip (pyLower q.expected_answer)) : ℚ) := by
    exact_mod_cast hw
  unfold pyMin
  split_ifs <;> linarith

/-- Witness for the amended claim C7 at bank question `basic_3`. -/
theorem technical_score_model_answer_bound_witness :
    7 ≤ (fallback_evaluation (bankQuestion 2)
      ((bankQuestion 2).expected_answer)).technical_score :=
  technical_score_model_answer_bound (bankQuestion 2) (Or.inl rfl) rfl rfl (by decide)

/-- Claim C8.  `get_question_by_difficulty` never returns a question whose id
is in the exclusion set: both the primary difficulty-window filter and the
closest-distance fallback filter exclude those ids before any question is
picked. -/
theorem get_question_by_difficulty_respects_exclusions (questions : List Question)
    (target : ℚ) (category : Option String) (exclude_ids : List String) (q : Question)
    (h : get_question_by_difficulty questions target category exclude_ids = some q) :
    ¬ q.id ∈ exclude_ids := by
  have hq : suitableFilter target category exclude_ids q = true ∨
      categoryFilter category exclude_ids q = true := by
    simp only [get_question_by_difficulty] at h
    split at h
    case isTrue hempty =>
      split at h
      case isTrue hcat =>
        right
        have := head?_mem h
        rw [mem_sortByKey] at this
        exact (List.mem_filter.mp this).2
      case isFalse hcat =>
        rw [List.isEmpty_iff.mp hempty] at h
        simp at h
    case isFalse hempty =>
      left
      have := head?_mem h
      exact (List.mem_filter.mp this).2
  intro hmem
  rcases hq with hf | hf
  · unfold suitableFilter at hf
    simp [hmem] at hf
  · unfold categoryFilter at hf
    simp [hmem] at hf

/-- Witness for claim C8: excluding `basic_1` at target difficulty 2 returns
`basic_2`, which is not excluded. -/
theorem get_question_by_difficulty_respects_exclusions_witness :
    ¬ (bankQuestion 1).id ∈ ["basic_1"] :=
  get_question_by_difficulty_respects_exclusions bankQuestions 2 none ["basic_1"]
    (bankQuestion 1) (by with_unfolding_all rfl)

/-- Claim C9.  For a candidate turn carrying an evaluation,
`add_conversation_turn` appends the four dimension scores to the metric
lists unconditionally, but increments `questions_answered` and updates
`avg_response_time` only when the turn's `response_time` is truthy; a `None`
or zero response time leaves both unchanged, so the score lists can outgrow
`questions_answered`. -/
theorem add_conversation_turn_update (s : InterviewSession) (turn : ConversationTurn)
    (e : AnswerEvaluation) (hs : turn.speaker = "candidate")
    (he : turn.evaluation = some e) :
    ((add_conversation_turn s turn).metrics.technical_scores =
        s.metrics.technical_scores ++ [e.technical_score] ∧
      (add_conversation_turn s turn).metrics.approach_scores =
        s.metrics.approach_scores ++ [e.approach_score] ∧
      (add_conversation_turn s turn).metrics.communication_scores =
        s.metrics.communication_scores ++ [e.communication_score] ∧
      (add_conversation_turn s turn).metrics.overall_scores =
        s.metrics.overall_scores ++ [e.overall_score]) ∧
    ((turn.response_time = none ∨ turn.response_time = some 0) →
      (add_conversation_turn s turn).metrics.questions_answered =
          s.metrics.questions_answered ∧
        (add_conversation_turn s turn).metrics.avg_response_time =
          s.metrics.avg_response_time) ∧
    (∀ rt : ℚ, turn.response_time = some rt → rt ≠ 0 →
      (add_conversation_turn s turn).metrics.questions_answered =
          s.metrics.questions_answered + 1 ∧
        (add_conversation_turn s turn).metrics.avg_response_time =
          (s.metrics.avg_response_time * (s.metrics.questions_answered : ℚ) + rt) /
            ((s.metrics.questions_answered : ℚ) + 1)) := by
  obtain ⟨speaker, message, question_id, response_time, evaluation⟩ := turn
  simp only at hs he
  subst hs he
  cases response_time with
  | none =>
    refine ⟨⟨rfl, rfl, rfl, rfl⟩, fun _ => ⟨rfl, rfl⟩, fun rt hrt => by simp at hrt⟩
  | some rt0 =>
    by_cases h0 : rt0 = 0
    · subst h0
      refine ⟨⟨?_, ?_, ?_, ?_⟩, fun _ => ⟨?_, ?_⟩, fun rt hrt hne => ?_⟩ <;>
        simp_all [add_conversation_turn]
    · refine ⟨⟨?_, ?_, ?_, ?_⟩, fun hc => ?_, fun rt hrt hne => ?_⟩ <;>
        simp_all [add_conversation_turn]

/-- Witness for claim C9: a candidate turn with an evaluation and no response
time grows `overall_scores` while `questions_answered` stays 0. -/
theorem add_conversation_turn_update_witness :
    (add_conversation_turn {} demoTurn).metrics.overall_scores =
      ({} : InterviewSession).metrics.overall_scores ++ [demoEvaluation.overall_score] ∧
    (add_conversation_turn {} demoTurn).metrics.questions_answered =
      ({} : InterviewSession).metrics.questions_answered :=
  ⟨(add_conversation_turn_update {} demoTurn demoEvaluation rfl rfl).1.2.2.2,
   ((add_conversation_turn_update {} demoTurn demoEvaluation rfl rfl).2.1 (Or.inl rfl)).1⟩

/-- Claim C10.  `ScoreLevel.from_score` is total and returns
`NEEDS_IMPROVEMENT` for every score outside all of the inclusive bands — in
particular in the gap between 0.89 and 0.9, for negative scores, and for
scores above 1.0 such as the 0–10-scale dimension scores that
`AnswerEvaluation.__post_init__` feeds to it for the breakdown levels. -/
theorem from_score_total_default (sc : ℚ) :
    ((¬(0.9 ≤ sc ∧ sc ≤ 1) ∧ ¬(0.7 ≤ sc ∧ sc ≤ 0.89) ∧ ¬(0.5 ≤ sc ∧ sc ≤ 0.69) ∧
        ¬(0 ≤ sc ∧ sc ≤ 0.49)) →
      ScoreLevel.from_score sc = .NEEDS_IMPROVEMENT) ∧
    (0.89 < sc → sc < 0.9 → ScoreLevel.from_score sc = .NEEDS_IMPROVEMENT) ∧
    (sc < 0 → ScoreLevel.from_score sc = .NEEDS_IMPROVEMENT) ∧
    (1 < sc → ScoreLevel.from_score sc = .NEEDS_IMPROVEMENT) ∧
    (∀ (e : AnswerEvaluation) (b : ScoreBreakdown), e.technical_breakdown = some b →
      (setBreakdownLevels e).technical_breakdown =
        some { b with level := ScoreLevel.from_score e.technical_score }) := by
  refine ⟨fun hb => ?_, fun hlo hhi => ?_, fun hneg => ?_, fun hgt => ?_,
    fun e b hb => ?_⟩
  · rw [from_score_eq, if_neg hb.1, if_neg hb.2.1, if_neg hb.2.2.1]
  · rw [from_score_eq, if_neg (by rintro ⟨ha, _⟩; linarith),
      if_neg (by rintro ⟨_, ha⟩; linarith), if_neg (by rintro ⟨_, ha⟩; linarith)]
  · rw [from_score_eq, if_neg (by rintro ⟨ha, _⟩; linarith),
      if_neg (by rintro ⟨ha, _⟩; linarith), if_neg (by rintro ⟨ha, _⟩; linarith)]
  · rw [from_score_eq, if_neg (by rintro ⟨_, ha⟩; linarith),
      if_neg (by rintro ⟨_, ha⟩; linarith), if_neg (by rintro ⟨_, ha⟩; linarith)]
  · simp [setBreakdownLevels, hb]

/-- Witness for claim C10 at 0.895 (band gap), −0.2, and the 0–10-scale
technical score 7 of a breakdown-carrying evaluation. -/
theorem from_score_total_default_witness :
    ScoreLevel.from_score 0.895 = .NEEDS_IMPROVEMENT ∧
    ScoreLevel.from_score (-0.2) = .NEEDS_IMPROVEMENT ∧
    ScoreLevel.from_score 7 = .NEEDS_IMPROVEMENT ∧
    (setBreakdownLevels demoBreakdownEvaluation).technical_breakdown =
      some { raw_score := 7, weighted_score := 2.8,
             level := ScoreLevel.from_score demoBreakdownEvaluation.technical_score,
             justification := "keywords" } :=
  ⟨(from_score_total_default 0.895).2.1 (by norm_num) (by norm_num),
   (from_score_total_default (-0.2)).2.2.1 (by norm_num),
   (from_score_total_default 7).2.2.2.1 (by norm_num),
   (from_score_total_default 7).2.2.2.2 demoBreakdownEvaluation
     { raw_score := 7, weighted_score := 2.8, level := .GOOD, justification := "keywords" }
     rfl⟩

end ExcelInterviewer
